import Mathlib

/-!
Verification of the note-mixer-relay admission-and-mixing pipeline.

The definitions below are a shallow embedding of `src/main.go`:

* `NostrEvent` embeds `nostr.Event` (id, pubkey, created_at, kind, tags,
  content, sig).
* `Crypto` abstracts the cryptographic primitives of the `go-nostr`
  library (key parsing, public-key derivation, canonical id hashing,
  signing); `signEvent` embeds `nostr.Event.Sign`, which derives the
  public key from the private key, computes the canonical id over the
  populated fields, and fills in the signature.
* `mixEvent` embeds the struct literal at the top of `mixAndStoreEvent`
  that builds the mixed event from the inbound one; the wall clock read
  `time.Now().Unix()` is passed in as the explicit parameter `now`.
* `mixAndStoreEvent` embeds the function of the same name; the database
  (`db.SaveEvent`) is the parameter `save`, and the observable effects
  (save calls, local broadcast calls, the spawned background rebroadcast)
  are recorded in a `MixOutcome` trace.
* `rejectNonWhitelistedPubkeys` / `rejectUnsupportedKinds` embed the
  closures returned by `createRejectNonWhitelistedPubkeys` and
  `createRejectUnsupportedKinds`.  The whitelist `map[string]bool` is
  represented by its list of keys (`loadConfig` only ever inserts the
  value `true`).
* `runRejectChain` models the evaluation of the relay's RejectEvent hook
  list.  Modelled from the spec: the khatru framework (an external
  dependency, not part of this repository's sources) evaluates the hooks
  in order, short-circuiting on the first rejection.  `relayRejectEvent`
  embeds the hook order installed by `setupRelayHandlers` (pubkey check,
  then kind check, then the generic library policies, abstracted as
  `ext`).
* `Network`, `attemptPeer`, `rebroadcastRun`, `rebroadcastEvent` embed
  `rebroadcastEvent`; the network (`nostr.RelayConnect` / `Publish`) is
  the `Network` parameter, and `rebroadcastRun` additionally records the
  list of attempted peer addresses in order.
* `parseRebroadcastRelays` embeds the REBROADCAST_RELAYS handling in
  `loadConfig`: `strings.Split(s, ",")` followed by `strings.TrimSpace`
  of every element.  `splitOnComma`/`trimChars` give Go's semantics at
  the character-list level (in particular `Split("", ",")` = `[""]`).
* `submitNote` embeds the handler returned by `createSubmitNoteHandler`
  (the HTTP POST /submit-note path), with the two wall-clock reads passed
  as `now1` (synthesized event) and `now2` (mixing instant).
-/

namespace NoteMixer

/-- Embeds `nostr.Event`: id, pubkey, created_at, kind, tags, content, sig. -/
structure NostrEvent where
  id : String
  pubKey : String
  createdAt : Int
  kind : Int
  tags : List (List String)
  content : String
  sig : String
deriving DecidableEq

/-- Abstraction of the go-nostr cryptographic primitives used by
`nostr.Event.Sign`: `signOk sk` is whether the private key `sk` parses,
`pubOf sk` derives the public key, `idOf ev` is the canonical hash of the
signed fields, `sigOf ev sk` the Schnorr signature. -/
structure Crypto where
  signOk : String → Bool
  pubOf : String → String
  idOf : NostrEvent → String
  sigOf : NostrEvent → String → String

/-- The successful branch of `nostr.Event.Sign`: set `PubKey` from the
private key, compute the canonical `ID` over the populated fields, then
fill in `Sig`. -/
def signEventOk (c : Crypto) (sk : String) (ev : NostrEvent) : NostrEvent :=
  let withPub := { ev with pubKey := c.pubOf sk }
  let withId := { withPub with id := c.idOf withPub }
  { withId with sig := c.sigOf withId sk }

/-- Embeds `nostr.Event.Sign`: fails iff the private key is malformed. -/
def signEvent (c : Crypto) (sk : String) (ev : NostrEvent) : Except String NostrEvent :=
  if c.signOk sk then Except.ok (signEventOk c sk ev) else Except.error "invalid private key"

/-- Embeds the mixed-event struct literal in `mixAndStoreEvent`
(`src/main.go` lines 169-174): copy `Content`, `Kind`, `Tags`; set
`CreatedAt` to the clock value `now`; leave `ID`, `PubKey`, `Sig` at their
zero values (they are filled in by `Sign`). -/
def mixEvent (event : NostrEvent) (now : Int) : NostrEvent :=
  { id := ""
    pubKey := ""
    createdAt := now
    kind := event.kind
    tags := event.tags
    content := event.content
    sig := "" }

/-- Observable effect trace of one `mixAndStoreEvent` call: the events
passed to `db.SaveEvent`, to `relay.BroadcastEvent`, the `(event, relays)`
arguments of the spawned `go rebroadcastEvent(...)` goroutine, and the
returned error (if any). -/
structure MixOutcome where
  saveCalls : List NostrEvent
  broadcastCalls : List NostrEvent
  spawnedRebroadcast : List (NostrEvent × List String)
  err : Option String
deriving DecidableEq

/-- Embeds `mixAndStoreEvent` (`src/main.go` lines 168-187): build the
mixed event, sign it with the relay private key, save it, broadcast it
locally, and spawn the background peer rebroadcast; the first failing
step aborts with a wrapped error. -/
def mixAndStoreEvent (c : Crypto) (save : NostrEvent → Option String) (event : NostrEvent)
    (privateKey : String) (rebroadcastRelays : List String) (now : Int) : MixOutcome :=
  let mixedEvent := mixEvent event now
  match signEvent c privateKey mixedEvent with
  | Except.error e =>
    { saveCalls := [], broadcastCalls := [], spawnedRebroadcast := []
      err := some ("failed to sign mixed event: " ++ e) }
  | Except.ok signed =>
    match save signed with
    | some e =>
      { saveCalls := [signed], broadcastCalls := [], spawnedRebroadcast := []
        err := some ("failed to save mixed event: " ++ e) }
    | none =>
      { saveCalls := [signed], broadcastCalls := [signed]
        spawnedRebroadcast := [(signed, rebroadcastRelays)], err := none }

/-- Embeds the closure returned by `createRejectNonWhitelistedPubkeys`
(`src/main.go` lines 200-210).  The `map[string]bool` whitelist is
represented by its key list (every stored value is `true`). -/
def rejectNonWhitelistedPubkeys (whitelist : List String) (event : NostrEvent) : Bool × String :=
  if whitelist.length = 0 then (false, "")
  else if !(whitelist.contains event.pubKey) then (true, "pubkey not whitelisted")
  else (false, "")

/-- Embeds the closure returned by `createRejectUnsupportedKinds`
(`src/main.go` lines 189-198): scan `allowedKinds` for the event's kind;
accept on a match, otherwise reject naming the kind. -/
def rejectUnsupportedKinds (allowedKinds : List Int) (event : NostrEvent) : Bool × String :=
  match allowedKinds with
  | [] => (true, "event kind " ++ toString event.kind ++ " is not supported")
  | kind :: rest =>
    if event.kind = kind then (false, "") else rejectUnsupportedKinds rest event

/-- Modelled from the spec: the khatru framework (external dependency)
runs the relay's RejectEvent hooks in order and short-circuits on the
first hook that rejects, returning that hook's reason; if no hook
rejects, the event is admitted. -/
def runRejectChain (checks : List (NostrEvent → Bool × String)) (event : NostrEvent) :
    Bool × String :=
  match checks with
  | [] => (false, "")
  | check :: rest =>
    let r := check event
    if r.1 then r else runRejectChain rest event

/-- Embeds the RejectEvent hook order installed by `setupRelayHandlers`
(`src/main.go` lines 138-143): pubkey whitelist check first, kind
allowlist check second, then the generic library policies (base64-media
filter, IP rate limiter), abstracted here as `ext`. -/
def relayRejectEvent (whitelist : List String) (allowedKinds : List Int)
    (ext : List (NostrEvent → Bool × String)) (event : NostrEvent) : Bool × String :=
  runRejectChain
    ([rejectNonWhitelistedPubkeys whitelist, rejectUnsupportedKinds allowedKinds] ++ ext) event

/-- Abstraction of the peer-relay network: `connect url` returns
`some err` when `nostr.RelayConnect` fails, and `publish url ev` returns
`some err` when `relay.Publish` fails. -/
structure Network where
  connect : String → Option String
  publish : String → NostrEvent → Option String

/-- One iteration of the loop body of `rebroadcastEvent`
(`src/main.go` lines 230-243): connect, then publish; a failure at either
step yields the corresponding descriptive error string. -/
def attemptPeer (n : Network) (event : NostrEvent) (url : String) : Option String :=
  match n.connect url with
  | some e => some ("failed to connect to relay " ++ url ++ ": " ++ e)
  | none =>
    match n.publish url event with
    | some e => some ("failed to publish event to relay " ++ url ++ ": " ++ e)
    | none => none

/-- The loop of `rebroadcastEvent` instrumented with its attempt trace:
the first component lists every peer address attempted, in order; the
second collects the error strings, in order. -/
def rebroadcastRun (n : Network) (event : NostrEvent) : List String → List String × List String
  | [] => ([], [])
  | url :: rest =>
    let r := rebroadcastRun n event rest
    match attemptPeer n event url with
    | some e => (url :: r.1, e :: r.2)
    | none => (url :: r.1, r.2)

/-- Embeds `rebroadcastEvent` (`src/main.go` lines 226-248): returns the
collected error strings. -/
def rebroadcastEvent (n : Network) (event : NostrEvent) (relays : List String) : List String :=
  (rebroadcastRun n event relays).2

/-- Go's `strings.Split(s, ",")` at the character-list level: in
particular the split of the empty string is `[[]]` (one empty field). -/
def splitOnComma (s : List Char) : List (List Char) :=
  match s with
  | [] => [[]]
  | c :: rest =>
    let r := splitOnComma rest
    if c = ',' then [] :: r
    else
      match r with
      | [] => [[c]]
      | h :: t => (c :: h) :: t

/-- Go's `strings.TrimSpace` at the character-list level: drop leading
and trailing whitespace. -/
def trimChars (s : List Char) : List Char :=
  ((s.dropWhile Char.isWhitespace).reverse.dropWhile Char.isWhitespace).reverse

/-- Embeds the REBROADCAST_RELAYS handling in `loadConfig`
(`src/main.go` lines 95-99): split the environment value on commas and
trim each element.  An unset variable yields the empty string via
`getEnv("REBROADCAST_RELAYS", "")`. -/
def parseRebroadcastRelays (s : String) : List String :=
  (splitOnComma s.data).map (fun cs => String.mk (trimChars cs))

/-- Embeds the event literal synthesized by `createSubmitNoteHandler`
(`src/main.go` lines 313-318): fixed kind 1, `CreatedAt` from the clock,
the submitted content, empty tags. -/
def httpSynthEvent (now1 : Int) (content : String) : NostrEvent :=
  { id := ""
    pubKey := ""
    createdAt := now1
    kind := 1
    tags := []
    content := content
    sig := "" }

/-- Embeds the response assembly of `createSubmitNoteHandler`
(`src/main.go` lines 336-343): the success line, followed, when any
rebroadcast error was collected, by a warning header, one list item per
error, and a closing tag. -/
def submitResponse (rebroadcastErrors : List String) : String :=
  let response := "<p class=\"success\">Note submitted successfully!</p>"
  if rebroadcastErrors.length > 0 then
    (rebroadcastErrors.foldl
      (fun acc e => acc ++ "<li class=\"warning\">" ++ e ++ "</li>")
      (response ++ "<p class=\"warning\">Rebroadcast issues:</p><ul>")) ++ "</ul>"
  else response

/-- Observable outcome of one POST /submit-note request: HTTP status,
response body, and the effect traces (save calls, local broadcasts, the
background rebroadcast spawned inside `mixAndStoreEvent`, and the
handler's own synchronous `rebroadcastEvent` call). -/
structure SubmitOutcome where
  status : Nat
  body : String
  saveCalls : List NostrEvent
  broadcastCalls : List NostrEvent
  spawnedRebroadcast : List (NostrEvent × List String)
  syncRebroadcastCalls : List (NostrEvent × List String)
deriving DecidableEq

/-- Embeds the handler returned by `createSubmitNoteHandler`
(`src/main.go` lines 286-345): method check, whitelist closed-mode check,
empty-content check, synthesize and sign a kind-1 event, run
`mixAndStoreEvent`, then synchronously rebroadcast the synthesized event
and render the response.  `now1` is the clock at synthesis, `now2` the
clock inside `mixAndStoreEvent`. -/
def submitNote (c : Crypto) (n : Network) (save : NostrEvent → Option String)
    (whitelist : List String) (privateKey : String) (rebroadcastRelays : List String)
    (now1 now2 : Int) (method : String) (content : String) : SubmitOutcome :=
  if method ≠ "POST" then
    { status := 405, body := "Method not allowed", saveCalls := [], broadcastCalls := []
      spawnedRebroadcast := [], syncRebroadcastCalls := [] }
  else if whitelist.length > 0 then
    { status := 403, body := "<p class=\"error\">This relay is not open for public submissions</p>"
      saveCalls := [], broadcastCalls := [], spawnedRebroadcast := [], syncRebroadcastCalls := [] }
  else if content = "" then
    { status := 200, body := "<p class=\"error\">Content cannot be empty</p>"
      saveCalls := [], broadcastCalls := [], spawnedRebroadcast := [], syncRebroadcastCalls := [] }
  else
    match signEvent c privateKey (httpSynthEvent now1 content) with
    | Except.error _ =>
      { status := 200, body := "<p class=\"error\">Failed to sign event</p>"
        saveCalls := [], broadcastCalls := [], spawnedRebroadcast := [], syncRebroadcastCalls := [] }
    | Except.ok event =>
      let m := mixAndStoreEvent c save event privateKey rebroadcastRelays now2
      match m.err with
      | some _ =>
        { status := 200, body := "<p class=\"error\">Failed to store event</p>"
          saveCalls := m.saveCalls, broadcastCalls := m.broadcastCalls
          spawnedRebroadcast := m.spawnedRebroadcast, syncRebroadcastCalls := [] }
      | none =>
        let rebroadcastErrors := rebroadcastEvent n event rebroadcastRelays
        { status := 200, body := submitResponse rebroadcastErrors
          saveCalls := m.saveCalls, broadcastCalls := m.broadcastCalls
          spawnedRebroadcast := m.spawnedRebroadcast
          syncRebroadcastCalls := [(event, rebroadcastRelays)] }

/-! ### Concrete fixtures used by witnesses and counterexamples -/

/-- A concrete, fully computable instantiation of the cryptographic
primitives, used to evaluate the pipeline on concrete inputs. -/
def testCrypto : Crypto :=
  { signOk := fun _ => true
    pubOf := fun sk => "pk-" ++ sk
    idOf := fun ev => "id-" ++ ev.content
    sigOf := fun _ _ => "signature" }

/-- A persistence gateway whose saves always succeed. -/
def saveOk : NostrEvent → Option String := fun _ => none

/-- A persistence gateway whose saves always fail. -/
def saveFail : NostrEvent → Option String := fun _ => some "db closed"

/-- A network where every connect and publish succeeds. -/
def netOk : Network :=
  { connect := fun _ => none, publish := fun _ _ => none }

/-- A network where connecting to "relayA" fails and everything else
succeeds. -/
def netA : Network :=
  { connect := fun url => if url = "relayA" then some "refused" else none
    publish := fun _ _ => none }

/-- A network where every connect fails (in particular the connect to the
empty address). -/
def netDown : Network :=
  { connect := fun _ => some "dial error", publish := fun _ _ => none }

/-- A concrete inbound event. -/
def sampleEvent : NostrEvent :=
  { id := "orig-id"
    pubKey := "alice"
    createdAt := 5
    kind := 1
    tags := [["e", "abcd"]]
    content := "hello"
    sig := "orig-sig" }

/-- The same payload as `sampleEvent` under a different author identity,
id, signature, and timestamp. -/
def sampleEventAlt : NostrEvent :=
  { id := "other-id"
    pubKey := "bob"
    createdAt := 99
    kind := 1
    tags := [["e", "abcd"]]
    content := "hello"
    sig := "other-sig" }

/-- A concrete event of an unsupported kind. -/
def sampleEventKind9999 : NostrEvent :=
  { id := "orig-id"
    pubKey := "alice"
    createdAt := 5
    kind := 9999
    tags := []
    content := "hello"
    sig := "orig-sig" }

/-! ### Claim theorems -/

/-- C1: for every inbound event, the event handed to the store by
`mixAndStoreEvent` (the signed mixed event) copies `content`, `kind`,
`tags` verbatim from the inbound event, carries the relay's own public
key (derived from the relay private key), and has `createdAt` equal to
the clock value `now` sampled at call time; the inbound `publicKey`,
`id`, and `signature` (and `createdAt`) are discarded entirely — any two
inbound events agreeing on `content`, `kind`, `tags` produce identical
outcomes. -/
theorem C1_mix_copies_payload_and_anonymizes (c : Crypto) (save : NostrEvent → Option String)
    (event : NostrEvent) (sk : String) (relays : List String) (now : Int)
    (hsig : c.signOk sk = true) :
    (mixAndStoreEvent c save event sk relays now).saveCalls
        = [signEventOk c sk (mixEvent event now)]
    ∧ (signEventOk c sk (mixEvent event now)).content = event.content
    ∧ (signEventOk c sk (mixEvent event now)).kind = event.kind
    ∧ (signEventOk c sk (mixEvent event now)).tags = event.tags
    ∧ (signEventOk c sk (mixEvent event now)).pubKey = c.pubOf sk
    ∧ (signEventOk c sk (mixEvent event now)).createdAt = now
    ∧ ∀ other : NostrEvent, other.content = event.content → other.kind = event.kind →
        other.tags = event.tags →
        mixAndStoreEvent c save other sk relays now = mixAndStoreEvent c save event sk relays now := by
  refine ⟨?_, rfl, rfl, rfl, rfl, rfl, ?_⟩
  · simp only [mixAndStoreEvent, signEvent, hsig, if_true]
    cases h : save (signEventOk c sk (mixEvent event now)) <;> simp
  · intro other h1 h2 h3
    have hmix : mixEvent other now = mixEvent event now := by
      simp [mixEvent, h1, h2, h3]
    simp only [mixAndStoreEvent, hmix]

/-- Witness for C1 at concrete inputs: the stored event for
`sampleEvent` is the signed mixed event, its payload fields and relay
identity evaluate as claimed, and `sampleEventAlt` (same payload,
different author/id/sig/timestamp) produces the identical outcome. -/
theorem C1_witness :
    (mixAndStoreEvent testCrypto saveOk sampleEvent "sk" ["wss://r"] 42).saveCalls
        = [signEventOk testCrypto "sk" (mixEvent sampleEvent 42)]
    ∧ (signEventOk testCrypto "sk" (mixEvent sampleEvent 42)).content = "hello"
    ∧ (signEventOk testCrypto "sk" (mixEvent sampleEvent 42)).pubKey = "pk-sk"
    ∧ (signEventOk testCrypto "sk" (mixEvent sampleEvent 42)).createdAt = 42
    ∧ mixAndStoreEvent testCrypto saveOk sampleEventAlt "sk" ["wss://r"] 42
        = mixAndStoreEvent testCrypto saveOk sampleEvent "sk" ["wss://r"] 42 := by
  have h := C1_mix_copies_payload_and_anonymizes testCrypto saveOk sampleEvent "sk"
    ["wss://r"] 42 rfl
  exact ⟨h.1, by decide, by decide, by decide,
    h.2.2.2.2.2.2 sampleEventAlt rfl rfl rfl⟩

/-- C3: when the pubkey whitelist is non-empty and does not contain the
event's public key, the pubkey check rejects with exactly
"pubkey not whitelisted"; when the whitelist is empty it never rejects,
regardless of the event's public key. -/
theorem C3_pubkey_whitelist_check (wl : List String) (ev : NostrEvent) :
    (wl ≠ [] → wl.contains ev.pubKey = false →
      rejectNonWhitelistedPubkeys wl ev = (true, "pubkey not whitelisted"))
    ∧ (wl = [] → rejectNonWhitelistedPubkeys wl ev = (false, "")) := by
  constructor
  · intro hne hc
    have hlen : ¬ (wl.length = 0) := by simpa [List.length_eq_zero] using hne
    have hmem : ev.pubKey ∉ wl := by simpa using hc
    simp [rejectNonWhitelistedPubkeys, hlen, hmem]
  · intro h
    subst h
    simp [rejectNonWhitelistedPubkeys]

/-- Witness for C3 at concrete inputs: `sampleEvent` (public key "alice")
is rejected under the whitelist ["carol"] and passes under the empty
whitelist. -/
theorem C3_witness :
    rejectNonWhitelistedPubkeys ["carol"] sampleEvent = (true, "pubkey not whitelisted")
    ∧ rejectNonWhitelistedPubkeys [] sampleEvent = (false, "") :=
  ⟨(C3_pubkey_whitelist_check ["carol"] sampleEvent).1 (by decide) (by decide),
   (C3_pubkey_whitelist_check [] sampleEvent).2 rfl⟩

/-- C4: the kind check rejects an event whose kind is outside the
allowed-kinds list with a reason naming that kind, and passes (with the
empty reason) an event whose kind is in the list. -/
theorem C4_kind_allowlist_check (kinds : List Int) (ev : NostrEvent) :
    (ev.kind ∉ kinds →
      rejectUnsupportedKinds kinds ev
        = (true, "event kind " ++ toString ev.kind ++ " is not supported"))
    ∧ (ev.kind ∈ kinds → rejectUnsupportedKinds kinds ev = (false, "")) := by
  induction kinds with
  | nil => simp [rejectUnsupportedKinds]
  | cons k rest ih =>
    constructor
    · intro h
      rw [List.mem_cons] at h
      push_neg at h
      simp [rejectUnsupportedKinds, h.1, ih.1 h.2]
    · intro h
      rcases List.mem_cons.mp h with h1 | h2
      · simp [rejectUnsupportedKinds, h1]
      · by_cases he : ev.kind = k
        · simp [rejectUnsupportedKinds, he]
        · simp [rejectUnsupportedKinds, he, ih.2 h2]

/-- Witness for C4 at concrete inputs: with allowed kinds {1, 30023},
kind 9999 is rejected with a reason naming 9999, and kind 1 passes. -/
theorem C4_witness :
    rejectUnsupportedKinds [1, 30023] sampleEventKind9999
      = (true, "event kind 9999 is not supported")
    ∧ rejectUnsupportedKinds [1, 30023] sampleEvent = (false, "") :=
  ⟨((C4_kind_allowlist_check [1, 30023] sampleEventKind9999).1 (by decide)).trans (by decide),
   (C4_kind_allowlist_check [1, 30023] sampleEvent).2 (by decide)⟩

/-- C5: the RejectEvent chain installed by `setupRelayHandlers` places
the pubkey whitelist check before the kind check and short-circuits on
the first rejection, so an event violating both checks observes reason
"pubkey not whitelisted" — regardless of the generic policies `ext`
appended after the two domain checks. -/
theorem C5_pubkey_check_wins_for_doubly_invalid (wl : List String) (kinds : List Int)
    (ext : List (NostrEvent → Bool × String)) (ev : NostrEvent)
    (hwl : wl ≠ []) (hpk : wl.contains ev.pubKey = false) (_hk : ev.kind ∉ kinds) :
    relayRejectEvent wl kinds ext ev = (true, "pubkey not whitelisted") := by
  have hlen : ¬ (wl.length = 0) := by simpa [List.length_eq_zero] using hwl
  have hmem : ev.pubKey ∉ wl := by simpa using hpk
  simp [relayRejectEvent, runRejectChain, rejectNonWhitelistedPubkeys, hlen, hmem]

/-- Witness for C5 at concrete inputs: kind-9999 event with public key
"alice" under whitelist ["carol"] and allowed kinds {1, 30023} is
rejected by the full chain with "pubkey not whitelisted". -/
theorem C5_witness :
    relayRejectEvent ["carol"] [1, 30023] [] sampleEventKind9999
      = (true, "pubkey not whitelisted") :=
  C5_pubkey_check_wins_for_doubly_invalid ["carol"] [1, 30023] [] sampleEventKind9999
    (by decide) (by decide) (by decide)

/-- C6 counterexample: the claim "the mixed event's createdAt is greater
than or equal to the inbound event's createdAt" fails at a concrete
input: for an inbound event with `createdAt = 5` mixed at clock value 3
(a future-dated inbound event), the mixed `createdAt` is 3 < 5.  The
code samples the clock without comparing it to the inbound timestamp. -/
theorem C6_counterexample :
    ¬ ((mixEvent sampleEvent 3).createdAt ≥ sampleEvent.createdAt) := by
  decide

/-- C6 amended: the mixed event's `createdAt` equals the clock value
sampled at mixing time; it is greater than or equal to the inbound
event's `createdAt` whenever the inbound timestamp does not lie ahead of
the mixing clock (the code performs no check against future-dated
inbound timestamps). -/
theorem C6_mixed_timestamp (event : NostrEvent) (now : Int) :
    (mixEvent event now).createdAt = now
    ∧ (event.createdAt ≤ now → (mixEvent event now).createdAt ≥ event.createdAt) := by
  refine ⟨rfl, ?_⟩
  intro h
  simpa [mixEvent] using h

/-- Witness for C6 amended at concrete inputs: mixing `sampleEvent`
(createdAt 5) at clock value 7 yields createdAt 7 ≥ 5. -/
theorem C6_witness :
    (mixEvent sampleEvent 7).createdAt = 7
    ∧ (mixEvent sampleEvent 7).createdAt ≥ sampleEvent.createdAt := by
  have h := C6_mixed_timestamp sampleEvent 7
  exact ⟨h.1, h.2 (by decide)⟩

/-- C7: when saving the signed mixed event fails, `mixAndStoreEvent`
returns the wrapped storage error, performs no local broadcast and
spawns no peer rebroadcast, and has called the store exactly once for
that event (no retry, no queueing). -/
theorem C7_save_failure_aborts (c : Crypto) (save : NostrEvent → Option String)
    (event : NostrEvent) (sk : String) (relays : List String) (now : Int) (e : String)
    (hsig : c.signOk sk = true)
    (hsave : save (signEventOk c sk (mixEvent event now)) = some e) :
    mixAndStoreEvent c save event sk relays now =
      { saveCalls := [signEventOk c sk (mixEvent event now)]
        broadcastCalls := []
        spawnedRebroadcast := []
        err := some ("failed to save mixed event: " ++ e) } := by
  simp [mixAndStoreEvent, signEvent, hsig, hsave]

/-- Witness for C7 at concrete inputs: under the always-failing store,
processing `sampleEvent` aborts with the wrapped error, after exactly one
save attempt and with no broadcast and no rebroadcast. -/
theorem C7_witness :
    mixAndStoreEvent testCrypto saveFail sampleEvent "sk" ["wss://r"] 42 =
      { saveCalls := [signEventOk testCrypto "sk" (mixEvent sampleEvent 42)]
        broadcastCalls := []
        spawnedRebroadcast := []
        err := some ("failed to save mixed event: " ++ "db closed") } :=
  C7_save_failure_aborts testCrypto saveFail sampleEvent "sk" ["wss://r"] 42 "db closed"
    rfl rfl

/-! ### Helper lemmas about the rebroadcast loop -/

/-- The rebroadcast loop attempts exactly the configured peers, in
order. -/
theorem rebroadcastRun_attempts (n : Network) (ev : NostrEvent) :
    ∀ relays : List String, (rebroadcastRun n ev relays).1 = relays := by
  intro relays
  induction relays with
  | nil => rfl
  | cons url rest ih =>
    simp only [rebroadcastRun]
    cases attemptPeer n ev url <;> simpa using ih

/-- The collected error list is the `filterMap` of one attempt per
configured peer, in order. -/
theorem rebroadcastRun_errors (n : Network) (ev : NostrEvent) :
    ∀ relays : List String,
      (rebroadcastRun n ev relays).2 = relays.filterMap (attemptPeer n ev) := by
  intro relays
  induction relays with
  | nil => rfl
  | cons url rest ih =>
    simp only [rebroadcastRun, List.filterMap_cons]
    cases attemptPeer n ev url <;> simpa using ih

/-- A `filterMap` has as many elements as the inputs on which the
function fires. -/
theorem length_filterMap_eq_length_filter {α β : Type} (f : α → Option β) :
    ∀ l : List α, (l.filterMap f).length = (l.filter (fun a => (f a).isSome)).length := by
  intro l
  induction l with
  | nil => rfl
  | cons a t ih =>
    simp only [List.filterMap_cons, List.filter_cons]
    cases h : f a <;> simp [h, ih]

/-- Every error string produced by a peer attempt contains that peer's
address. -/
theorem attemptPeer_mentions_address (n : Network) (ev : NostrEvent) (u : String) (e : String)
    (h : attemptPeer n ev u = some e) :
    ∃ pre post : String, e = pre ++ (u ++ post) := by
  unfold attemptPeer at h
  cases hc : n.connect u with
  | some m =>
    rw [hc] at h
    refine ⟨"failed to connect to relay ", ": " ++ m, ?_⟩
    have he : e = "failed to connect to relay " ++ u ++ ": " ++ m := by
      injection h with h1
      exact h1.symm
    rw [he]
    simp [String.append_assoc]
  | none =>
    rw [hc] at h
    cases hp : n.publish u ev with
    | some m =>
      rw [hp] at h
      refine ⟨"failed to publish event to relay ", ": " ++ m, ?_⟩
      have he : e = "failed to publish event to relay " ++ u ++ ": " ++ m := by
        injection h with h1
        exact h1.symm
      rw [he]
      simp [String.append_assoc]
    | none =>
      rw [hp] at h
      cases h

/-- C2: `rebroadcastEvent` attempts every configured peer exactly once,
in order, regardless of earlier failures; the returned failure list is
the in-order collection of one attempt outcome per peer, its length
equals the number of failed peers, it is empty exactly when every peer
succeeded, and each failure string references the failing peer's
address. -/
theorem C2_rebroadcast_attempts_all_peers (n : Network) (ev : NostrEvent)
    (relays : List String) :
    (rebroadcastRun n ev relays).1 = relays
    ∧ rebroadcastEvent n ev relays = relays.filterMap (attemptPeer n ev)
    ∧ (rebroadcastEvent n ev relays).length
        = (relays.filter (fun u => (attemptPeer n ev u).isSome)).length
    ∧ (rebroadcastEvent n ev relays = [] ↔ ∀ u ∈ relays, attemptPeer n ev u = none)
    ∧ ∀ e ∈ rebroadcastEvent n ev relays,
        ∃ u ∈ relays, attemptPeer n ev u = some e ∧ ∃ pre post : String, e = pre ++ (u ++ post) := by
  refine ⟨rebroadcastRun_attempts n ev relays, rebroadcastRun_errors n ev relays, ?_, ?_, ?_⟩
  · rw [rebroadcastEvent, rebroadcastRun_errors]
    exact length_filterMap_eq_length_filter (attemptPeer n ev) relays
  · rw [rebroadcastEvent, rebroadcastRun_errors]
    exact List.filterMap_eq_nil_iff
  · intro e he
    rw [rebroadcastEvent, rebroadcastRun_errors] at he
    rcases List.mem_filterMap.mp he with ⟨u, hu, hatt⟩
    exact ⟨u, hu, hatt, attemptPeer_mentions_address n ev u e hatt⟩

/-- Witness for C2 at concrete inputs: with peers ["relayA", "relayB"]
where connecting to relayA fails and relayB succeeds, both peers are
attempted in order and the failure list is exactly the one relayA
error. -/
theorem C2_witness :
    (rebroadcastRun netA sampleEvent ["relayA", "relayB"]).1 = ["relayA", "relayB"]
    ∧ rebroadcastEvent netA sampleEvent ["relayA", "relayB"]
        = ["failed to connect to relay relayA: refused"] := by
  have h := C2_rebroadcast_attempts_all_peers netA sampleEvent ["relayA", "relayB"]
  refine ⟨h.1, ?_⟩
  rw [h.2.1]
  decide

/-- C10: with REBROADCAST_RELAYS unset or empty, `loadConfig` produces
the one-element peer list [""] (not the empty list); consequently the
rebroadcast loop makes exactly one attempt, against the empty address,
and — since connecting to the empty address fails — returns a
one-element failure list even though no peer was configured. -/
theorem C10_empty_config_yields_one_attempt (n : Network) (ev : NostrEvent) (e : String)
    (hc : n.connect "" = some e) :
    parseRebroadcastRelays "" = [""]
    ∧ (rebroadcastRun n ev (parseRebroadcastRelays "")).1 = [""]
    ∧ rebroadcastEvent n ev (parseRebroadcastRelays "")
        = ["failed to connect to relay " ++ "" ++ ": " ++ e] := by
  have h0 : parseRebroadcastRelays "" = [""] := by decide
  refine ⟨h0, ?_, ?_⟩ <;> rw [h0] <;>
    simp [rebroadcastRun, rebroadcastEvent, attemptPeer, hc]

/-- Witness for C10 at concrete inputs: under the all-connects-fail
network, the empty configuration yields exactly one attempt against ""
and the single corresponding failure string. -/
theorem C10_witness :
    parseRebroadcastRelays "" = [""]
    ∧ (rebroadcastRun netDown sampleEvent (parseRebroadcastRelays "")).1 = [""]
    ∧ rebroadcastEvent netDown sampleEvent (parseRebroadcastRelays "")
        = ["failed to connect to relay : dial error"] := by
  have h := C10_empty_config_yields_one_attempt netDown sampleEvent "dial error" rfl
  exact ⟨h.1, h.2.1, h.2.2.trans (by decide)⟩

/-! ### Helper lemmas about the HTTP submission handler -/

/-- The concatenation of the warning list items rendered for a list of
rebroadcast errors. -/
def warningConcat : List String → String
  | [] => ""
  | e :: rest => ("<li class=\"warning\">" ++ e ++ "</li>") ++ warningConcat rest

/-- The fold in `submitResponse` appends one list item per error after
the accumulator. -/
theorem submitResponse_foldl (l : List String) :
    ∀ acc : String,
      l.foldl (fun acc e => acc ++ "<li class=\"warning\">" ++ e ++ "</li>") acc
        = acc ++ warningConcat l := by
  induction l with
  | nil => intro acc; simp [warningConcat]
  | cons e t ih =>
    intro acc
    rw [List.foldl_cons, ih]
    simp [warningConcat, String.append_assoc]

/-- Each member of the error list occurs inside the rendered warning
items. -/
theorem warningConcat_mentions (e : String) :
    ∀ l : List String, e ∈ l →
      ∃ pre post : String, warningConcat l = pre ++ (e ++ post) := by
  intro l
  induction l with
  | nil => intro h; cases h
  | cons x t ih =>
    intro h
    rcases List.mem_cons.mp h with rfl | ht
    · exact ⟨"<li class=\"warning\">", "</li>" ++ warningConcat t,
        by simp [warningConcat, String.append_assoc]⟩
    · rcases ih ht with ⟨pre, post, hp⟩
      exact ⟨("<li class=\"warning\">" ++ x ++ "</li>") ++ pre, post,
        by simp [warningConcat, hp, String.append_assoc]⟩

/-- Each collected rebroadcast error occurs inside the rendered response
body. -/
theorem submitResponse_mentions (errors : List String) (e : String) (he : e ∈ errors) :
    ∃ pre post : String, submitResponse errors = pre ++ (e ++ post) := by
  have hlen : errors.length > 0 := List.length_pos.mpr (List.ne_nil_of_mem he)
  rcases warningConcat_mentions e errors he with ⟨pre, post, hp⟩
  refine ⟨("<p class=\"success\">Note submitted successfully!</p>"
      ++ "<p class=\"warning\">Rebroadcast issues:</p><ul>") ++ pre, post ++ "</ul>", ?_⟩
  simp only [submitResponse]
  rw [if_pos hlen, submitResponse_foldl, hp]
  simp [String.append_assoc]

/-- On the successful open-mode POST path, the handler stores, broadcasts
and spawns a rebroadcast of the signed mixed event, and synchronously
rebroadcasts the signed synthesized event, rendering the response from
the latter's failure list. -/
theorem submitNote_success (c : Crypto) (n : Network) (save : NostrEvent → Option String)
    (sk : String) (relays : List String) (now1 now2 : Int) (content : String)
    (hsig : c.signOk sk = true) (hcontent : content ≠ "")
    (hsave : save (signEventOk c sk
        (mixEvent (signEventOk c sk (httpSynthEvent now1 content)) now2)) = none) :
    submitNote c n save [] sk relays now1 now2 "POST" content =
      { status := 200
        body := submitResponse
          (rebroadcastEvent n (signEventOk c sk (httpSynthEvent now1 content)) relays)
        saveCalls := [signEventOk c sk
          (mixEvent (signEventOk c sk (httpSynthEvent now1 content)) now2)]
        broadcastCalls := [signEventOk c sk
          (mixEvent (signEventOk c sk (httpSynthEvent now1 content)) now2)]
        spawnedRebroadcast := [(signEventOk c sk
          (mixEvent (signEventOk c sk (httpSynthEvent now1 content)) now2), relays)]
        syncRebroadcastCalls := [(signEventOk c sk (httpSynthEvent now1 content), relays)] } := by
  simp [submitNote, signEvent, hsig, hcontent, mixAndStoreEvent, hsave]

/-- C8 counterexample: the claim says the synthesized HTTP event is run
through the admission policy chain before being mixed and stored.  At a
concrete configuration whose chain rejects kind 1 (allowed kinds
{30023}, empty whitelist), the chain rejects the synthesized event with
"event kind 1 is not supported" — yet the handler still stores a mixed
event for it: the admission chain is never consulted on the HTTP path
(`createSubmitNoteHandler` calls `mixAndStoreEvent` directly). -/
theorem C8_counterexample :
    relayRejectEvent [] [30023] [] (signEventOk testCrypto "sk" (httpSynthEvent 10 "hi"))
        = (true, "event kind 1 is not supported")
    ∧ (submitNote testCrypto netOk saveOk [] "sk" ["wss://r"] 10 20 "POST" "hi").saveCalls
        = [signEventOk testCrypto "sk"
            (mixEvent (signEventOk testCrypto "sk" (httpSynthEvent 10 "hi")) 20)] := by
  constructor <;> decide

/-- C8 amended: on the HTTP submission path with an empty whitelist and
accepted content, the handler synthesizes an event of the fixed default
kind 1, and that event is mixed, signed and stored via the shared
`mixAndStoreEvent` routine — but the admission policy chain (pubkey and
kind checks) is not applied on this path — and the response includes
every rebroadcast failure description of the handler's synchronous
rebroadcast. -/
theorem C8_http_submission_pipeline (c : Crypto) (n : Network)
    (save : NostrEvent → Option String) (sk : String) (relays : List String)
    (now1 now2 : Int) (content : String)
    (hsig : c.signOk sk = true) (hcontent : content ≠ "")
    (hsave : save (signEventOk c sk
        (mixEvent (signEventOk c sk (httpSynthEvent now1 content)) now2)) = none) :
    (httpSynthEvent now1 content).kind = 1
    ∧ (submitNote c n save [] sk relays now1 now2 "POST" content).saveCalls
        = [signEventOk c sk (mixEvent (signEventOk c sk (httpSynthEvent now1 content)) now2)]
    ∧ (submitNote c n save [] sk relays now1 now2 "POST" content).syncRebroadcastCalls
        = [(signEventOk c sk (httpSynthEvent now1 content), relays)]
    ∧ (submitNote c n save [] sk relays now1 now2 "POST" content).status = 200
    ∧ ∀ e ∈ rebroadcastEvent n (signEventOk c sk (httpSynthEvent now1 content)) relays,
        ∃ pre post : String,
          (submitNote c n save [] sk relays now1 now2 "POST" content).body
            = pre ++ (e ++ post) := by
  have hs := submitNote_success c n save sk relays now1 now2 content hsig hcontent hsave
  refine ⟨rfl, ?_, ?_, ?_, ?_⟩
  · rw [hs]
  · rw [hs]
  · rw [hs]
  · intro e he
    rw [hs]
    exact submitResponse_mentions _ e he

/-- Witness for C8 amended at concrete inputs: submitting "hi" in open
mode with peers ["relayA", "relayB"] stores the signed mixed event,
synchronously rebroadcasts the synthesized event, and succeeds. -/
theorem C8_witness :
    (submitNote testCrypto netA saveOk [] "sk" ["relayA", "relayB"] 10 20 "POST" "hi").saveCalls
        = [signEventOk testCrypto "sk"
            (mixEvent (signEventOk testCrypto "sk" (httpSynthEvent 10 "hi")) 20)]
    ∧ (submitNote testCrypto netA saveOk [] "sk" ["relayA", "relayB"] 10 20
        "POST" "hi").syncRebroadcastCalls
        = [(signEventOk testCrypto "sk" (httpSynthEvent 10 "hi"), ["relayA", "relayB"])]
    ∧ (submitNote testCrypto netA saveOk [] "sk" ["relayA", "relayB"] 10 20
        "POST" "hi").status = 200 := by
  have h := C8_http_submission_pipeline testCrypto netA saveOk "sk" ["relayA", "relayB"]
    10 20 "hi" rfl (by decide) rfl
  exact ⟨h.2.1, h.2.2.1, h.2.2.2.1⟩

/-- C9 counterexample: the claim says the mixed event is the only event
ever rebroadcast to peers and the inbound event is never fanned out.  On
the HTTP path at concrete inputs, the handler synchronously rebroadcasts
the synthesized inbound event itself, which differs from the stored
mixed event (their `createdAt` values are the two distinct clock
samples). -/
theorem C9_counterexample :
    (submitNote testCrypto netOk saveOk [] "sk" ["wss://r"] 10 20 "POST" "hi").saveCalls
        = [signEventOk testCrypto "sk"
            (mixEvent (signEventOk testCrypto "sk" (httpSynthEvent 10 "hi")) 20)]
    ∧ (submitNote testCrypto netOk saveOk [] "sk" ["wss://r"] 10 20
        "POST" "hi").syncRebroadcastCalls
        = [(signEventOk testCrypto "sk" (httpSynthEvent 10 "hi"), ["wss://r"])]
    ∧ signEventOk testCrypto "sk" (httpSynthEvent 10 "hi")
        ≠ signEventOk testCrypto "sk"
            (mixEvent (signEventOk testCrypto "sk" (httpSynthEvent 10 "hi")) 20) := by
  refine ⟨?_, ?_, ?_⟩ <;> decide

/-- C9 amended: on the protocol-native path each accepted inbound event
produces exactly one mixed event, and that mixed event is the only event
persisted, broadcast locally, or handed to the spawned peer rebroadcast
— the inbound event itself is never stored or fanned out there.  On the
HTTP path, however, the handler additionally rebroadcasts the synthesized
(relay-signed) submission event itself to the peers. -/
theorem C9_one_mixed_event_per_inbound (c : Crypto) (n : Network)
    (save : NostrEvent → Option String) (event : NostrEvent) (sk : String)
    (relays : List String) (now now1 now2 : Int) (content : String)
    (hsig : c.signOk sk = true)
    (hsaveNative : save (signEventOk c sk (mixEvent event now)) = none)
    (hcontent : content ≠ "")
    (hsaveHttp : save (signEventOk c sk
        (mixEvent (signEventOk c sk (httpSynthEvent now1 content)) now2)) = none) :
    mixAndStoreEvent c save event sk relays now =
      { saveCalls := [signEventOk c sk (mixEvent event now)]
        broadcastCalls := [signEventOk c sk (mixEvent event now)]
        spawnedRebroadcast := [(signEventOk c sk (mixEvent event now), relays)]
        err := none }
    ∧ (submitNote c n save [] sk relays now1 now2 "POST" content).syncRebroadcastCalls
        = [(signEventOk c sk (httpSynthEvent now1 content), relays)] := by
  constructor
  · simp [mixAndStoreEvent, signEvent, hsig, hsaveNative]
  · rw [submitNote_success c n save sk relays now1 now2 content hsig hcontent hsaveHttp]

/-- Witness for C9 amended at concrete inputs. -/
theorem C9_witness :
    mixAndStoreEvent testCrypto saveOk sampleEvent "sk" ["wss://r"] 42 =
      { saveCalls := [signEventOk testCrypto "sk" (mixEvent sampleEvent 42)]
        broadcastCalls := [signEventOk testCrypto "sk" (mixEvent sampleEvent 42)]
        spawnedRebroadcast := [(signEventOk testCrypto "sk" (mixEvent sampleEvent 42), ["wss://r"])]
        err := none }
    ∧ (submitNote testCrypto netOk saveOk [] "sk" ["wss://r"] 10 20
        "POST" "hi").syncRebroadcastCalls
        = [(signEventOk testCrypto "sk" (httpSynthEvent 10 "hi"), ["wss://r"])] := by
  have h := C9_one_mixed_event_per_inbound testCrypto netOk saveOk sampleEvent "sk"
    ["wss://r"] 42 10 20 "hi" rfl rfl (by decide) rfl
  exact ⟨h.1, h.2⟩

end NoteMixer
